import Mathlib

/-!
Verification of the shot-list / image-generation workflow of the
Cinematic Vision tool (`CinematicTool` in `src/components/ApiKeyPrompt.tsx`,
types in `src/types.ts`).

The component state (`script`, `isAnalyzing`, `shots`, `error`) is embedded
as an explicit state record.  The two remote model calls (text generation,
image generation) and `JSON.parse` are external collaborators: each is
modelled as an oracle argument describing the outcome the environment
produced for the one request the function issues.  Side effects on the
environment (issuing a request, invoking the credential-reselection
collaborator `window.aistudio.openSelectKey`, committing a shot-list
update) are recorded in an ordered event trace so that ordering and
counting properties can be stated.
-/

namespace CinematicVision

/-- `Shot` from `src/types.ts`: the seven fields produced by the Analyzer. -/
structure Shot where
  shotNumber : Int
  sceneDescription : String
  cameraAngle : String
  cameraMovement : String
  lens : String
  lighting : String
  imagePrompt : String
deriving Repr, DecidableEq

/-- `GeneratedShot` from `src/types.ts`: a `Shot` plus the per-shot render
view-state.  The optional boolean `isGenerating?` of the source is embedded
as a `Bool` (JS truthiness of `undefined` and `false` coincide). -/
structure GeneratedShot extends Shot where
  imageUrl : Option String := none
  isGenerating : Bool := false
  error : Option String := none
deriving Repr, DecidableEq

/-- A freshly parsed shot: in the source, `JSON.parse` yields objects with
only the seven `Shot` fields, so the view-state fields are absent. -/
def Shot.toGenerated (s : Shot) : GeneratedShot := { toShot := s }

/-- JS `String.prototype.trim` (strip leading/trailing whitespace),
implemented over the character list so concrete states evaluate in the
kernel. -/
def jsTrim (s : String) : String :=
  ⟨((s.data.dropWhile Char.isWhitespace).reverse.dropWhile Char.isWhitespace).reverse⟩

/-- Emptiness of a string, via its character list (kernel-reducible). -/
def strEmpty (s : String) : Bool := s.data.isEmpty

/-- JS truthiness of an optional string: `undefined` and `""` are falsy. -/
def jsTruthy : Option String → Bool
  | none => false
  | some s => !strEmpty s

/-- JS `a || b` on strings (used for `err.message || "..."` fallbacks). -/
def jsOr (s default : String) : String := if strEmpty s then default else s

/-- Helper for `str.includes(pat)`: scan the character list for `pat`. -/
def includesAux (pat : List Char) : List Char → Bool
  | [] => pat.isEmpty
  | c :: t => pat.isPrefixOf (c :: t) || includesAux pat t

/-- JS `String.prototype.includes`. -/
def jsIncludes (s pat : String) : Bool := includesAux pat.data s.data

/-- The component state of `CinematicTool`:
`useState` hooks `script`, `isAnalyzing`, `shots`, `error`. -/
structure ToolState where
  script : String
  isAnalyzing : Bool
  shots : List GeneratedShot
  error : Option String
deriving Repr, DecidableEq

/-- The initial component state (the `useState` defaults). -/
def initialState : ToolState :=
  { script := "", isAnalyzing := false, shots := [], error := none }

/-- Outcome of the awaited text-generation call in `analyzeScript`:
either the request throws, or it returns a response whose `text` field may
be absent. -/
inductive AnalyzeOutcome where
  | throws (msg : String)
  | returns (text : Option String)
deriving Repr, DecidableEq

/-- `analyzeScript` from `src/components/ApiKeyPrompt.tsx` (lines 114-196).
`outcome` is the oracle for the awaited `ai.models.generateContent` call;
`parse` is the oracle for `JSON.parse` on the trimmed response text
(`.error msg` models a thrown `SyntaxError` with message `msg`).

Source shape: an empty/whitespace-only script returns before any effect;
otherwise `isAnalyzing := true`, `error := null`, `shots := []`; then the
response's `text?.trim()` must be truthy (present and non-empty) to be
parsed, else `Error("Failed to parse script analysis.")` is thrown; every
caught error `err` sets the top-level error to
`err.message || "An error occurred during analysis."`; `finally` clears
`isAnalyzing`. -/
def analyzeScript (st : ToolState) (outcome : AnalyzeOutcome)
    (parse : String → Except String (List Shot)) : ToolState :=
  if strEmpty (jsTrim st.script) then st
  else
    let st1 : ToolState := { st with isAnalyzing := true, error := none, shots := [] }
    match outcome with
    | .throws msg =>
        { st1 with
          error := some (jsOr msg "An error occurred during analysis.")
          isAnalyzing := false }
    | .returns text =>
        let jsonStr : Option String := text.map jsTrim
        match jsonStr with
        | none =>
            { st1 with
              error := some "Failed to parse script analysis."
              isAnalyzing := false }
        | some t =>
            if strEmpty t then
              { st1 with
                error := some "Failed to parse script analysis."
                isAnalyzing := false }
            else
              match parse t with
              | .ok parsedShots =>
                  { st1 with
                    shots := parsedShots.map Shot.toGenerated
                    isAnalyzing := false }
              | .error msg =>
                  { st1 with
                    error := some (jsOr msg "An error occurred during analysis.")
                    isAnalyzing := false }

/-- One content part of an image-generation response: `inlineData`, when
present, carries the base64 `data` string (other parts, e.g. text, have
none). -/
structure Part where
  inlineData : Option String
deriving Repr, DecidableEq

/-- Outcome of the awaited image-generation call in `generateImageForShot`:
either the request throws with message `msg` (`""` models an absent
message), or it returns a response whose part list is
`response.candidates?.[0]?.content?.parts || []` (the optional chain
collapses a missing candidate/content to `[]`). -/
inductive RenderOutcome where
  | throws (msg : String)
  | returns (parts : List Part)
deriving Repr, DecidableEq

/-- Observable events of one `generateImageForShot` call, in program
order: a `setShots` commit touching index `i`, the single image request,
and an invocation of `window.aistudio.openSelectKey` (the
credential-reselection collaborator). -/
inductive RenderEvent where
  | shotUpdated (i : Nat)
  | requestIssued
  | reselectKey
deriving Repr, DecidableEq

/-- `newShots[i] = { ...newShots[i], ... }` on a copied list: update the
element at `i` in place, leaving an out-of-range index untouched (the
source only reaches this with an in-range index). -/
def updateAt (shots : List GeneratedShot) (i : Nat)
    (f : GeneratedShot → GeneratedShot) : List GeneratedShot :=
  match shots[i]? with
  | some s => shots.set i (f s)
  | none => shots

/-- The `for (const part of ...) if (part.inlineData) { imageUrl = ...;
break }` loop (lines 227-233): `""` when no part has inline data, else the
data URL built from the first part that does. -/
def extractImageUrl : List Part → String
  | [] => ""
  | p :: rest =>
    match p.inlineData with
    | some d => "data:image/png;base64," ++ d
    | none => extractImageUrl rest

/-- The first part carrying inline image data, if any (the value the
extraction loop commits to `imageUrl` is built from it). -/
def firstInlineData : List Part → Option String
  | [] => none
  | p :: rest =>
    match p.inlineData with
    | some d => some d
    | none => firstInlineData rest

/-- The authorization-not-found phrase tested by the catch block. -/
def notFoundPhrase : String := "Requested entity was not found"

/-- The catch block of `generateImageForShot` (lines 248-269) applied to
live state `live` and error message `msg`: when `err.message` is truthy
and contains the phrase, `openSelectKey` is awaited first; then the shot
at `i` is committed with `isGenerating := false` and
`error := err.message || "Failed to generate image."`. -/
def handleRenderFailure (live : List GeneratedShot) (i : Nat) (msg : String) :
    List GeneratedShot × List RenderEvent :=
  let reselect : List RenderEvent :=
    if !strEmpty msg && jsIncludes msg notFoundPhrase then [.reselectKey] else []
  (updateAt live i (fun s => { s with isGenerating := false
                                      error := some (jsOr msg "Failed to generate image.") }),
   reselect ++ [.shotUpdated i])

/-- `generateImageForShot` (lines 198-270), with the closure snapshot made
explicit: the guard `const shot = shots[shotIndex]; if (!shot ||
shot.isGenerating) return;` and the request's `shot.imagePrompt` read
`guardShots` (the render-time closure), while every `setShots(prev => ...)`
update applies to the live list `live`.  Direct invocation has
`guardShots = live` (see `generateImageForShot`); the Batch Sweep passes
its start-of-sweep snapshot.  `outcome` is the oracle for the awaited
image request.  Returns the live list after the call settles, plus the
ordered event trace. -/
def generateImageForShotWith (guardShots live : List GeneratedShot) (i : Nat)
    (outcome : RenderOutcome) : List GeneratedShot × List RenderEvent :=
  match guardShots[i]? with
  | none => (live, [])
  | some shot =>
    if shot.isGenerating then (live, [])
    else
      let live1 := updateAt live i (fun s => { s with isGenerating := true, error := none })
      match outcome with
      | .returns parts =>
        let imageUrl := extractImageUrl parts
        if strEmpty imageUrl then
          -- `throw new Error("No image generated.")`, caught by the catch block
          let r := handleRenderFailure live1 i "No image generated."
          (r.1, [.shotUpdated i, .requestIssued] ++ r.2)
        else
          (updateAt live1 i (fun s => { s with imageUrl := some imageUrl
                                               isGenerating := false }),
           [.shotUpdated i, .requestIssued, .shotUpdated i])
      | .throws msg =>
        let r := handleRenderFailure live1 i msg
        (r.1, [.shotUpdated i, .requestIssued] ++ r.2)

/-- `generateImageForShot` as invoked directly (the guard reads the same
list the updates apply to). -/
def generateImageForShot (shots : List GeneratedShot) (i : Nat)
    (outcome : RenderOutcome) : List GeneratedShot × List RenderEvent :=
  generateImageForShotWith shots shots i outcome

/-- The loop body of `generateAllImages` over the remaining indices:
`snapshot` is the closure's `shots` (both the loop's guard
`!shots[i].imageUrl && !shots[i].isGenerating` and the inner call's guard
read it), `live` the threaded component state.  Returns the final live
list and, per rendered index, that call's event trace. -/
def sweepAux (snapshot : List GeneratedShot) (outcomes : Nat → RenderOutcome) :
    List Nat → List GeneratedShot → List GeneratedShot × List (Nat × List RenderEvent)
  | [], live => (live, [])
  | i :: rest, live =>
    match snapshot[i]? with
    | none => sweepAux snapshot outcomes rest live
    | some s =>
      if !jsTruthy s.imageUrl && !s.isGenerating then
        let r := generateImageForShotWith snapshot live i (outcomes i)
        let res := sweepAux snapshot outcomes rest r.1
        (res.1, (i, r.2) :: res.2)
      else
        sweepAux snapshot outcomes rest live

/-- `generateAllImages` (lines 272-278): `for (let i = 0; i <
shots.length; i++) if (!shots[i].imageUrl && !shots[i].isGenerating) await
generateImageForShot(i)`. -/
def generateAllImages (shots : List GeneratedShot) (outcomes : Nat → RenderOutcome) :
    List GeneratedShot × List (Nat × List RenderEvent) :=
  sweepAux shots outcomes (List.range shots.length) shots

/-- The sweep guard on the snapshot: true when index `i` is eligible for a
render (in range, `imageUrl` falsy, not generating). -/
def sweepEligible (shots : List GeneratedShot) (i : Nat) : Bool :=
  match shots[i]? with
  | some s => !jsTruthy s.imageUrl && !s.isGenerating
  | none => false

/-- The sweep as the spec words it ("skipping any shot that already has
`imageUrl` set or `isGenerating` true at the moment it is reached"): the
guard of each step reads the current list, not the start-of-sweep
snapshot.  Compared with `sweepAux` in the refinement theorem for the
Batch Sweep. -/
def sweepSpecAux (outcomes : Nat → RenderOutcome) :
    List Nat → List GeneratedShot → List GeneratedShot × List (Nat × List RenderEvent)
  | [], live => (live, [])
  | i :: rest, live =>
    if sweepEligible live i then
      let r := generateImageForShot live i (outcomes i)
      let res := sweepSpecAux outcomes rest r.1
      (res.1, (i, r.2) :: res.2)
    else
      sweepSpecAux outcomes rest live

/-- `generateAllImages` with the guard evaluated on the state as it is
when each index is reached (the spec's reading). -/
def generateAllImagesSpec (shots : List GeneratedShot) (outcomes : Nat → RenderOutcome) :
    List GeneratedShot × List (Nat × List RenderEvent) :=
  sweepSpecAux outcomes (List.range shots.length) shots

/-- The transient state committed by lines 202-210 of
`generateImageForShot` (mark the shot generating, clear its error) when
the guard passes; unchanged otherwise.  Used to make the in-flight state
of a render a reachable state of its own. -/
def renderStartState (shots : List GeneratedShot) (i : Nat) : List GeneratedShot :=
  match shots[i]? with
  | none => shots
  | some s =>
    if s.isGenerating then shots
    else updateAt shots i (fun t => { t with isGenerating := true, error := none })

/-- The component states reachable by any sequence of user edits,
Analyzer calls, Renderer calls (including their in-flight states) and
Batch Sweeps, under arbitrary environment outcomes. -/
inductive Reachable : ToolState → Prop where
  | init : Reachable initialState
  | editScript (st : ToolState) (s : String) :
      Reachable st → Reachable { st with script := s }
  | analyze (st : ToolState) (outcome : AnalyzeOutcome)
      (parse : String → Except String (List Shot)) :
      Reachable st → Reachable (analyzeScript st outcome parse)
  | renderStart (st : ToolState) (i : Nat) :
      Reachable st → Reachable { st with shots := renderStartState st.shots i }
  | render (st : ToolState) (i : Nat) (outcome : RenderOutcome) :
      Reachable st → Reachable { st with shots := (generateImageForShot st.shots i outcome).1 }
  | sweep (st : ToolState) (outcomes : Nat → RenderOutcome) :
      Reachable st → Reachable { st with shots := (generateAllImages st.shots outcomes).1 }

/-- How many of the three status indicators are set on a shot.  The
spec's "exactly one of {`isGenerating` true, `imageUrl` present, `error`
present, none-yet-attempted}" is the statement `statusFlags s ≤ 1` (the
fourth status is `statusFlags s = 0`). -/
def statusFlags (s : GeneratedShot) : Nat :=
  (if s.isGenerating then 1 else 0) + (if s.imageUrl.isSome then 1 else 0)
    + (if s.error.isSome then 1 else 0)

/-- A concrete shot used by witnesses and counterexamples. -/
def testShot : Shot :=
  { shotNumber := 1
    sceneDescription := "A man drinks coffee."
    cameraAngle := "Close Up"
    cameraMovement := "Static"
    lens := "50mm"
    lighting := "soft natural"
    imagePrompt := "a man drinking coffee, cinematic" }

/-- A concrete parse oracle: every payload parses to `[testShot]`. -/
def parseOneShot : String → Except String (List Shot) := fun _ => .ok [testShot]

/-- Concrete run: the script is typed in. -/
def cexSt1 : ToolState := { initialState with script := "INT. ROOM - DAY" }

/-- Concrete run: a successful analysis yields one shot. -/
def cexSt2 : ToolState := analyzeScript cexSt1 (.returns (some "[shot]")) parseOneShot

/-- Concrete run: shot 0 renders successfully (one inline-data part). -/
def cexSt3 : ToolState :=
  { cexSt2 with
    shots := (generateImageForShot cexSt2.shots 0 (.returns [{ inlineData := some "QUJD" }])).1 }

/-- Concrete run: shot 0 is rendered again and the request throws. -/
def cexSt4 : ToolState :=
  { cexSt3 with shots := (generateImageForShot cexSt3.shots 0 (.throws "boom")).1 }

/-- Concrete run: after the analysis of `cexSt2`, a render of shot 0 has
started and is in flight. -/
def wStGen : ToolState := { cexSt2 with shots := renderStartState cexSt2.shots 0 }

/-- The in-flight view of `testShot`, as `renderStartState` produces it. -/
def genShot : GeneratedShot :=
  { toShot := testShot, imageUrl := none, isGenerating := true, error := none }

/-- A concrete failure message carrying the authorization phrase. -/
def authMsg : String := "Requested entity was not found: API key invalid"

end CinematicVision

namespace CinematicVision

/-! ### Helper lemmas about `updateAt` and one render call -/

theorem updateAt_length (l : List GeneratedShot) (i : Nat)
    (f : GeneratedShot → GeneratedShot) : (updateAt l i f).length = l.length := by
  unfold updateAt
  cases l[i]? <;> simp

theorem updateAt_getElem?_ne (l : List GeneratedShot) (i : Nat)
    (f : GeneratedShot → GeneratedShot) (j : Nat) (h : j ≠ i) :
    (updateAt l i f)[j]? = l[j]? := by
  unfold updateAt
  cases l[i]? <;> simp [List.getElem?_set_ne (Ne.symm h)]

theorem updateAt_getElem?_self (l : List GeneratedShot) (i : Nat)
    (f : GeneratedShot → GeneratedShot) (s : GeneratedShot) (h : l[i]? = some s) :
    (updateAt l i f)[i]? = some (f s) := by
  have hlt : i < l.length := by
    by_contra hge
    rw [List.getElem?_eq_none (Nat.le_of_not_lt hge)] at h
    exact Option.noConfusion h
  unfold updateAt
  rw [h]
  exact List.getElem?_set_eq_of_lt _ hlt

theorem mem_updateAt (l : List GeneratedShot) (i : Nat)
    (f : GeneratedShot → GeneratedShot) (x : GeneratedShot)
    (h : x ∈ updateAt l i f) : x ∈ l ∨ ∃ s, x = f s := by
  unfold updateAt at h
  cases hl : l[i]? with
  | none => rw [hl] at h; exact Or.inl h
  | some s =>
    rw [hl] at h
    rcases List.mem_or_eq_of_mem_set h with hm | he
    · exact Or.inl hm
    · exact Or.inr ⟨s, he⟩

theorem generateImageForShotWith_length (g live : List GeneratedShot) (i : Nat)
    (o : RenderOutcome) : ((generateImageForShotWith g live i o).1).length = live.length := by
  unfold generateImageForShotWith handleRenderFailure
  cases g[i]? with
  | none => simp
  | some shot =>
    by_cases hgen : shot.isGenerating <;>
      cases o <;>
        simp [hgen, updateAt_length] <;>
          split <;> simp [updateAt_length]

theorem generateImageForShotWith_frame (g live : List GeneratedShot) (i : Nat)
    (o : RenderOutcome) (j : Nat) (h : j ≠ i) :
    ((generateImageForShotWith g live i o).1)[j]? = live[j]? := by
  unfold generateImageForShotWith handleRenderFailure
  cases g[i]? with
  | none => simp
  | some shot =>
    by_cases hgen : shot.isGenerating <;>
      cases o <;>
        simp [hgen, updateAt_getElem?_ne _ _ _ _ h] <;>
          split <;> simp [updateAt_getElem?_ne _ _ _ _ h]

theorem generateImageForShotWith_guard_congr (g g' live : List GeneratedShot)
    (i : Nat) (o : RenderOutcome) (h : g[i]? = g'[i]?) :
    generateImageForShotWith g live i o = generateImageForShotWith g' live i o := by
  unfold generateImageForShotWith
  rw [h]

theorem extractImageUrl_eq_of_first (parts : List Part) (d : String)
    (h : firstInlineData parts = some d) :
    extractImageUrl parts = "data:image/png;base64," ++ d := by
  induction parts with
  | nil => exact Option.noConfusion h
  | cons p rest ih =>
    unfold extractImageUrl
    unfold firstInlineData at h
    cases hp : p.inlineData with
    | some e => rw [hp] at h; cases h; rfl
    | none => rw [hp] at h; exact ih h

theorem extractImageUrl_eq_empty (parts : List Part)
    (h : firstInlineData parts = none) : extractImageUrl parts = "" := by
  induction parts with
  | nil => rfl
  | cons p rest ih =>
    unfold extractImageUrl
    unfold firstInlineData at h
    cases hp : p.inlineData with
    | some e => rw [hp] at h; exact Option.noConfusion h
    | none => rw [hp] at h; exact ih h

theorem strEmpty_dataUrl (d : String) :
    strEmpty ("data:image/png;base64," ++ d) = false := by
  simp [strEmpty, String.data_append]

theorem strEmpty_jsOr (s d : String) (hd : strEmpty d = false) :
    strEmpty (jsOr s d) = false := by
  unfold jsOr
  by_cases h : strEmpty s
  · simp [h, hd]
  · rw [Bool.not_eq_true] at h
    simp [h]

theorem generateImageForShotWith_success_eq (g live : List GeneratedShot) (i : Nat)
    (s : GeneratedShot) (parts : List Part)
    (hs : g[i]? = some s) (hgen : s.isGenerating = false)
    (hne : strEmpty (extractImageUrl parts) = false) :
    generateImageForShotWith g live i (.returns parts)
      = (updateAt (updateAt live i fun t => { t with isGenerating := true, error := none }) i
           (fun t => { t with imageUrl := some (extractImageUrl parts), isGenerating := false }),
         [.shotUpdated i, .requestIssued, .shotUpdated i]) := by
  unfold generateImageForShotWith
  rw [hs]
  simp [hgen, hne]

theorem generateImageForShotWith_throws_eq (g live : List GeneratedShot) (i : Nat)
    (s : GeneratedShot) (msg : String)
    (hs : g[i]? = some s) (hgen : s.isGenerating = false) :
    generateImageForShotWith g live i (.throws msg)
      = (updateAt (updateAt live i fun t => { t with isGenerating := true, error := none }) i
           (fun t => { t with isGenerating := false
                              error := some (jsOr msg "Failed to generate image.") }),
         [.shotUpdated i, .requestIssued]
           ++ ((if !strEmpty msg && jsIncludes msg notFoundPhrase
                then [RenderEvent.reselectKey] else [])
               ++ [.shotUpdated i])) := by
  unfold generateImageForShotWith handleRenderFailure
  rw [hs]
  simp [hgen]

theorem generateImageForShotWith_noImage_eq (g live : List GeneratedShot) (i : Nat)
    (s : GeneratedShot) (parts : List Part)
    (hs : g[i]? = some s) (hgen : s.isGenerating = false)
    (hempty : strEmpty (extractImageUrl parts) = true) :
    generateImageForShotWith g live i (.returns parts)
      = (updateAt (updateAt live i fun t => { t with isGenerating := true, error := none }) i
           (fun t => { t with isGenerating := false, error := some "No image generated." }),
         [.shotUpdated i, .requestIssued, .shotUpdated i]) := by
  have hsel : (!strEmpty "No image generated."
      && jsIncludes "No image generated." notFoundPhrase) = false := by decide
  have hor : jsOr "No image generated." "Failed to generate image."
      = "No image generated." := by decide
  unfold generateImageForShotWith handleRenderFailure
  rw [hs]
  simp [hgen, hempty, hsel, hor]

/-- The guard of the catch block collapses: a message containing the
authorization phrase is non-empty, so `err.message &&` adds nothing. -/
theorem notFound_guard_collapse (msg : String) :
    (!strEmpty msg && jsIncludes msg notFoundPhrase) = jsIncludes msg notFoundPhrase := by
  by_cases h : strEmpty msg = true
  · have hdata : msg.data = [] := by
      unfold strEmpty at h
      exact List.isEmpty_iff.mp h
    have : jsIncludes msg notFoundPhrase = false := by
      unfold jsIncludes
      rw [hdata]
      decide
    rw [h, this]
    rfl
  · rw [Bool.not_eq_true] at h
    rw [h]
    rfl

theorem strEmpty_false_of_includes (msg : String)
    (h : jsIncludes msg notFoundPhrase = true) : strEmpty msg = false := by
  by_contra hc
  rw [Bool.not_eq_false] at hc
  have hdata : msg.data = [] := by
    unfold strEmpty at hc
    exact List.isEmpty_iff.mp hc
  unfold jsIncludes at h
  rw [hdata] at h
  exact absurd h (by decide)

/-! ### Preservation lemmas for the render-status invariant -/

theorem generateImageForShotWith_fst_cases (g live : List GeneratedShot) (i : Nat)
    (o : RenderOutcome) :
    (generateImageForShotWith g live i o).1 = live
      ∨ ∃ fin : GeneratedShot → GeneratedShot,
          (∀ t, (fin t).isGenerating = false)
          ∧ (generateImageForShotWith g live i o).1
              = updateAt (updateAt live i fun t => { t with isGenerating := true, error := none })
                  i fin := by
  cases hg : g[i]? with
  | none =>
    left
    unfold generateImageForShotWith
    rw [hg]
  | some s =>
    by_cases hgen : s.isGenerating = true
    · left
      unfold generateImageForShotWith
      rw [hg]
      simp [hgen]
    · rw [Bool.not_eq_true] at hgen
      cases o with
      | returns parts =>
        by_cases hi : strEmpty (extractImageUrl parts) = true
        · refine Or.inr ⟨fun t => { t with isGenerating := false, error := some "No image generated." },
            fun t => rfl, ?_⟩
          rw [generateImageForShotWith_noImage_eq g live i s parts hg hgen hi]
        · rw [Bool.not_eq_true] at hi
          refine Or.inr ⟨fun t => { t with imageUrl := some (extractImageUrl parts), isGenerating := false },
            fun t => rfl, ?_⟩
          rw [generateImageForShotWith_success_eq g live i s parts hg hgen hi]
      | throws msg =>
        refine Or.inr ⟨fun t => { t with isGenerating := false, error := some (jsOr msg "Failed to generate image.") },
          fun t => rfl, ?_⟩
        rw [generateImageForShotWith_throws_eq g live i s msg hg hgen]

theorem generateImageForShotWith_preserves (g live : List GeneratedShot) (i : Nat)
    (o : RenderOutcome)
    (hinv : ∀ s ∈ live, s.isGenerating = true → s.error = none) :
    ∀ s ∈ (generateImageForShotWith g live i o).1, s.isGenerating = true → s.error = none := by
  intro x hx hgen
  rcases generateImageForShotWith_fst_cases g live i o with he | ⟨fin, hfin, he⟩
  · rw [he] at hx
    exact hinv x hx hgen
  · rw [he] at hx
    rcases mem_updateAt _ _ _ _ hx with h1 | ⟨t, rfl⟩
    · rcases mem_updateAt _ _ _ _ h1 with h2 | ⟨u, rfl⟩
      · exact hinv x h2 hgen
      · rfl
    · rw [hfin t] at hgen
      exact Bool.noConfusion hgen

theorem sweepAux_preserves (snapshot : List GeneratedShot)
    (outcomes : Nat → RenderOutcome) (idxs : List Nat) (live : List GeneratedShot)
    (hinv : ∀ s ∈ live, s.isGenerating = true → s.error = none) :
    ∀ s ∈ (sweepAux snapshot outcomes idxs live).1, s.isGenerating = true → s.error = none := by
  induction idxs generalizing live with
  | nil => exact hinv
  | cons i rest ih =>
    unfold sweepAux
    cases snapshot[i]? with
    | none => exact ih live hinv
    | some s =>
      by_cases hg : (!jsTruthy s.imageUrl && !s.isGenerating) = true
      · simp only [hg, if_true]
        exact ih _ (generateImageForShotWith_preserves _ _ _ _ hinv)
      · simp only [Bool.not_eq_true] at hg
        simp only [hg, Bool.false_eq_true, if_false]
        exact ih live hinv

theorem mem_renderStartState (shots : List GeneratedShot) (i : Nat) (x : GeneratedShot)
    (h : x ∈ renderStartState shots i) : x ∈ shots ∨ x.error = none := by
  unfold renderStartState at h
  split at h
  · exact Or.inl h
  · split at h
    · exact Or.inl h
    · rcases mem_updateAt _ _ _ _ h with hm | ⟨t, rfl⟩
      · exact Or.inl hm
      · exact Or.inr rfl

theorem analyzeScript_shots_cases (st : ToolState) (o : AnalyzeOutcome)
    (parse : String → Except String (List Shot)) :
    (analyzeScript st o parse).shots = st.shots
      ∨ (analyzeScript st o parse).shots = []
      ∨ ∃ l : List Shot, (analyzeScript st o parse).shots = l.map Shot.toGenerated := by
  unfold analyzeScript
  by_cases hsc : strEmpty (jsTrim st.script) = true
  · rw [if_pos hsc]
    exact Or.inl rfl
  · rw [if_neg hsc]
    cases o with
    | throws msg => exact Or.inr (Or.inl rfl)
    | returns text =>
      cases text with
      | none => exact Or.inr (Or.inl rfl)
      | some t =>
        simp only [Option.map_some']
        by_cases ht : strEmpty (jsTrim t) = true
        · simp only [ht, if_true]
          exact Or.inr (Or.inl (by trivial))
        · rw [Bool.not_eq_true] at ht
          simp only [ht, Bool.false_eq_true, if_false]
          cases hp : parse (jsTrim t) with
          | ok l => exact Or.inr (Or.inr ⟨l, rfl⟩)
          | error msg => exact Or.inr (Or.inl rfl)

/-! ### Helper lemmas about the Batch Sweep -/

theorem sweepAux_fst_map (snapshot : List GeneratedShot)
    (outcomes : Nat → RenderOutcome) (idxs : List Nat) (live : List GeneratedShot) :
    (sweepAux snapshot outcomes idxs live).2.map Prod.fst
      = idxs.filter (sweepEligible snapshot) := by
  induction idxs generalizing live with
  | nil => rfl
  | cons i rest ih =>
    unfold sweepAux
    rw [List.filter_cons]
    unfold sweepEligible
    cases hs : snapshot[i]? with
    | none => simpa using ih live
    | some s =>
      by_cases hg : (!jsTruthy s.imageUrl && !s.isGenerating) = true
      · simpa [hg] using ih _
      · simp only [Bool.not_eq_true] at hg
        simpa [hg] using ih live

theorem sweepAux_getElem?_skip (snapshot : List GeneratedShot)
    (outcomes : Nat → RenderOutcome) (idxs : List Nat) (live : List GeneratedShot)
    (j : Nat) (hj : sweepEligible snapshot j = false) :
    ((sweepAux snapshot outcomes idxs live).1)[j]? = live[j]? := by
  induction idxs generalizing live with
  | nil => rfl
  | cons i rest ih =>
    unfold sweepAux
    cases hs : snapshot[i]? with
    | none => exact ih live
    | some s =>
      by_cases hg : (!jsTruthy s.imageUrl && !s.isGenerating) = true
      · have helig : sweepEligible snapshot i = true := by
          unfold sweepEligible
          rw [hs]
          exact hg
        have hne : j ≠ i := by
          intro he
          rw [he, helig] at hj
          exact Bool.noConfusion hj
        simp only [hg, if_true]
        rw [ih _]
        exact generateImageForShotWith_frame _ _ _ _ _ hne
      · simp only [Bool.not_eq_true] at hg
        simpa [hg] using ih live

theorem sweepAux_eq_spec (snapshot : List GeneratedShot)
    (outcomes : Nat → RenderOutcome) (idxs : List Nat) (live : List GeneratedShot)
    (hnd : idxs.Pairwise (· ≠ ·))
    (hagree : ∀ j ∈ idxs, live[j]? = snapshot[j]?) :
    sweepAux snapshot outcomes idxs live = sweepSpecAux outcomes idxs live := by
  induction idxs generalizing live with
  | nil => rfl
  | cons i rest ih =>
    have hi : live[i]? = snapshot[i]? := hagree i (List.mem_cons_self i rest)
    have hndr : rest.Pairwise (· ≠ ·) := (List.pairwise_cons.mp hnd).2
    have hnei : ∀ j ∈ rest, i ≠ j := (List.pairwise_cons.mp hnd).1
    unfold sweepAux sweepSpecAux
    unfold sweepEligible
    rw [hi]
    cases hs : snapshot[i]? with
    | none =>
      simp only []
      exact ih live hndr (fun j hj => hagree j (List.mem_cons_of_mem i hj))
    | some s =>
      by_cases hg : (!jsTruthy s.imageUrl && !s.isGenerating) = true
      · simp only [hg, if_true]
        have hcall : generateImageForShotWith snapshot live i (outcomes i)
            = generateImageForShotWith live live i (outcomes i) := by
          apply generateImageForShotWith_guard_congr
          rw [hi, hs]
        rw [generateImageForShot, ← hcall]
        have hrec : sweepAux snapshot outcomes rest
              (generateImageForShotWith snapshot live i (outcomes i)).1
            = sweepSpecAux outcomes rest
              (generateImageForShotWith snapshot live i (outcomes i)).1 := by
          apply ih _ hndr
          intro j hj
          rw [generateImageForShotWith_frame _ _ _ _ _ (Ne.symm (hnei j hj))]
          exact hagree j (List.mem_cons_of_mem i hj)
        rw [hrec]
      · simp only [Bool.not_eq_true] at hg
        simp only [hg, if_false]
        exact ih live hndr (fun j hj => hagree j (List.mem_cons_of_mem i hj))

end CinematicVision

namespace CinematicVision

/-! ### The claims -/

/-- C7: for every shot whose `isGenerating` flag is already true, invoking
the Shot Renderer on that shot's index is a no-op: no request is issued
(empty event trace) and the shot list is unchanged. -/
theorem generateImageForShot_generating_noop (shots : List GeneratedShot) (i : Nat)
    (s : GeneratedShot) (o : RenderOutcome)
    (hs : shots[i]? = some s) (hgen : s.isGenerating = true) :
    generateImageForShot shots i o = (shots, []) := by
  unfold generateImageForShot generateImageForShotWith
  rw [hs]
  simp [hgen]

/-- Witness for C7 at a concrete in-flight state. -/
theorem generateImageForShot_generating_noop_witness :
    wStGen.shots[0]? = some genShot
      ∧ genShot.isGenerating = true
      ∧ generateImageForShot wStGen.shots 0 (.throws "boom") = (wStGen.shots, []) :=
  ⟨by decide, by decide,
   generateImageForShot_generating_noop wStGen.shots 0 genShot (.throws "boom")
     (by decide) (by decide)⟩

/-- C9: a render of shot `i`, whether it succeeds or fails, mutates only
the element at index `i`: every other index is unchanged and the length
of the list is unchanged. -/
theorem generateImageForShot_frame (shots : List GeneratedShot) (i : Nat)
    (o : RenderOutcome) (j : Nat) (hne : j ≠ i) :
    ((generateImageForShot shots i o).1)[j]? = shots[j]?
      ∧ ((generateImageForShot shots i o).1).length = shots.length :=
  ⟨generateImageForShotWith_frame shots shots i o j hne,
   generateImageForShotWith_length shots shots i o⟩

/-- Witness for C9 at a concrete failing render. -/
theorem generateImageForShot_frame_witness :
    (1 : Nat) ≠ 0
      ∧ ((generateImageForShot cexSt2.shots 0 (.throws "boom")).1)[1]? = cexSt2.shots[1]?
      ∧ ((generateImageForShot cexSt2.shots 0 (.throws "boom")).1).length
        = cexSt2.shots.length :=
  ⟨by decide,
   (generateImageForShot_frame cexSt2.shots 0 (.throws "boom") 1 (by decide)).1,
   (generateImageForShot_frame cexSt2.shots 0 (.throws "boom") 1 (by decide)).2⟩

/-- C10: for every index out of range of the current shot list (including
any index when the list is empty), invoking the Shot Renderer is a safe
no-op: the guard returns before any request (empty trace) and the list is
unchanged; as a total Lean function it cannot throw. -/
theorem generateImageForShot_outOfRange_noop (shots : List GeneratedShot) (i : Nat)
    (o : RenderOutcome) (h : shots.length ≤ i) :
    generateImageForShot shots i o = (shots, []) := by
  unfold generateImageForShot generateImageForShotWith
  rw [List.getElem?_eq_none h]

/-- Witness for C10 on the empty list. -/
theorem generateImageForShot_outOfRange_noop_witness :
    ([] : List GeneratedShot).length ≤ 3
      ∧ generateImageForShot [] 3 (.returns []) = ([], []) :=
  ⟨by decide, generateImageForShot_outOfRange_noop [] 3 (.returns []) (by decide)⟩

end CinematicVision

namespace CinematicVision

/-- C2: for every shot index whose render request returns a response
containing at least one inline-image part, the renderer sets that shot's
`imageUrl` to `"data:image/png;base64,"` followed by the data of the
first such part, clears `isGenerating`, and leaves `error` unset (it was
cleared when the attempt started). -/
theorem generateImageForShot_success (shots : List GeneratedShot) (i : Nat)
    (s : GeneratedShot) (parts : List Part) (d : String)
    (hs : shots[i]? = some s) (hgen : s.isGenerating = false)
    (hfirst : firstInlineData parts = some d) :
    ((generateImageForShot shots i (.returns parts)).1)[i]?
      = some { s with imageUrl := some ("data:image/png;base64," ++ d)
                      isGenerating := false, error := none } := by
  have hurl := extractImageUrl_eq_of_first parts d hfirst
  have hne : strEmpty (extractImageUrl parts) = false := by
    rw [hurl]
    exact strEmpty_dataUrl d
  unfold generateImageForShot
  rw [generateImageForShotWith_success_eq shots shots i s parts hs hgen hne]
  rw [updateAt_getElem?_self _ _ _ _ (updateAt_getElem?_self _ _ _ _ hs)]
  rw [hurl]

/-- Witness for C2 at a concrete successful render. -/
theorem generateImageForShot_success_witness :
    cexSt2.shots[0]? = some testShot.toGenerated
      ∧ testShot.toGenerated.isGenerating = false
      ∧ firstInlineData [{ inlineData := some "QUJD" }] = some "QUJD"
      ∧ ((generateImageForShot cexSt2.shots 0
            (.returns [{ inlineData := some "QUJD" }])).1)[0]?
        = some { testShot.toGenerated with
                 imageUrl := some ("data:image/png;base64," ++ "QUJD")
                 isGenerating := false, error := none } :=
  ⟨by decide, by decide, by decide,
   generateImageForShot_success cexSt2.shots 0 testShot.toGenerated
     [{ inlineData := some "QUJD" }] "QUJD" (by decide) (by decide) (by decide)⟩

/-- C3: for every shot index whose render attempt fails, either because
the response carries no inline-image part or because the request throws,
the renderer clears `isGenerating`, sets `error` to a non-empty message,
and leaves `imageUrl` unset given it was unset before the attempt. -/
theorem generateImageForShot_failure_state (shots : List GeneratedShot) (i : Nat)
    (s : GeneratedShot) (o : RenderOutcome)
    (hs : shots[i]? = some s) (hgen : s.isGenerating = false)
    (himg : s.imageUrl = none)
    (hfail : (∃ parts, o = .returns parts ∧ firstInlineData parts = none)
      ∨ ∃ msg, o = .throws msg) :
    ∃ r : GeneratedShot,
      ((generateImageForShot shots i o).1)[i]? = some r
        ∧ r.isGenerating = false
        ∧ (∃ e, r.error = some e ∧ strEmpty e = false)
        ∧ r.imageUrl = none := by
  rcases hfail with ⟨parts, rfl, hnone⟩ | ⟨msg, rfl⟩
  · have hempty : strEmpty (extractImageUrl parts) = true := by
      rw [extractImageUrl_eq_empty parts hnone]
      rfl
    unfold generateImageForShot
    rw [generateImageForShotWith_noImage_eq shots shots i s parts hs hgen hempty]
    exact ⟨_, updateAt_getElem?_self _ _ _ _ (updateAt_getElem?_self _ _ _ _ hs),
      rfl, ⟨_, rfl, by decide⟩, himg⟩
  · unfold generateImageForShot
    rw [generateImageForShotWith_throws_eq shots shots i s msg hs hgen]
    exact ⟨_, updateAt_getElem?_self _ _ _ _ (updateAt_getElem?_self _ _ _ _ hs),
      rfl, ⟨_, rfl, strEmpty_jsOr msg "Failed to generate image." (by decide)⟩, himg⟩

/-- Witness for C3 at a concrete render whose response has no image part. -/
theorem generateImageForShot_failure_state_witness :
    cexSt2.shots[0]? = some testShot.toGenerated
      ∧ testShot.toGenerated.isGenerating = false
      ∧ testShot.toGenerated.imageUrl = none
      ∧ ∃ r : GeneratedShot,
          ((generateImageForShot cexSt2.shots 0 (.returns [])).1)[0]? = some r
            ∧ r.isGenerating = false
            ∧ (∃ e, r.error = some e ∧ strEmpty e = false)
            ∧ r.imageUrl = none :=
  ⟨by decide, by decide, by decide,
   generateImageForShot_failure_state cexSt2.shots 0 testShot.toGenerated (.returns [])
     (by decide) (by decide) (by decide) (Or.inl ⟨[], rfl, rfl⟩)⟩

end CinematicVision

namespace CinematicVision

/-- C8: for every render failure whose message contains the
authorization-not-found phrase, the credential-reselection collaborator is
invoked exactly once, before the shot's `error` field is set to that
message (the event trace is exactly request, reselect, error-setting
update); for failures without the phrase it is not invoked at all; in
both cases exactly one request is issued (no automatic reattempt). -/
theorem generateImageForShot_authReselect (shots : List GeneratedShot) (i : Nat)
    (s : GeneratedShot) (msg : String)
    (hs : shots[i]? = some s) (hgen : s.isGenerating = false) :
    ((generateImageForShot shots i (.throws msg)).2.count RenderEvent.reselectKey
        = if jsIncludes msg notFoundPhrase then 1 else 0)
      ∧ (generateImageForShot shots i (.throws msg)).2.count RenderEvent.requestIssued = 1
      ∧ (jsIncludes msg notFoundPhrase = true →
          (generateImageForShot shots i (.throws msg)).2
              = [.shotUpdated i, .requestIssued, .reselectKey, .shotUpdated i]
            ∧ ((generateImageForShot shots i (.throws msg)).1)[i]?
              = some { s with isGenerating := false, error := some msg })
      ∧ (jsIncludes msg notFoundPhrase = false →
          (generateImageForShot shots i (.throws msg)).2
            = [.shotUpdated i, .requestIssued, .shotUpdated i]) := by
  have e1 : (RenderEvent.shotUpdated i == RenderEvent.reselectKey) = false := by rfl
  have e2 : (RenderEvent.requestIssued == RenderEvent.reselectKey) = false := by rfl
  have e3 : (RenderEvent.reselectKey == RenderEvent.reselectKey) = true := by rfl
  have e4 : (RenderEvent.shotUpdated i == RenderEvent.requestIssued) = false := by rfl
  have e5 : (RenderEvent.requestIssued == RenderEvent.requestIssued) = true := by rfl
  have e6 : (RenderEvent.reselectKey == RenderEvent.requestIssued) = false := by rfl
  unfold generateImageForShot
  rw [generateImageForShotWith_throws_eq shots shots i s msg hs hgen]
  rw [notFound_guard_collapse]
  by_cases hin : jsIncludes msg notFoundPhrase = true
  · have hne := strEmpty_false_of_includes msg hin
    have hor : jsOr msg "Failed to generate image." = msg := by
      unfold jsOr
      rw [hne]
      rfl
    refine ⟨?_, ?_, fun _ => ⟨?_, ?_⟩, fun hcon => absurd hin (by rw [hcon]; exact Bool.noConfusion)⟩
    · simp [hin, List.count_cons, e1, e2, e3]
    · simp [hin, List.count_cons, e4, e5, e6]
    · simp [hin]
    · rw [updateAt_getElem?_self _ _ _ _ (updateAt_getElem?_self _ _ _ _ hs), hor]
  · rw [Bool.not_eq_true] at hin
    refine ⟨?_, ?_, fun hcon => absurd hcon (by rw [hin]; exact Bool.noConfusion), fun _ => ?_⟩
    · simp [hin, List.count_cons, e1, e2, e3]
    · simp [hin, List.count_cons, e4, e5, e6]
    · simp [hin]

/-- Witness for C8 at a concrete authorization failure. -/
theorem generateImageForShot_authReselect_witness :
    cexSt2.shots[0]? = some testShot.toGenerated
      ∧ testShot.toGenerated.isGenerating = false
      ∧ ((generateImageForShot cexSt2.shots 0 (.throws authMsg)).2.count
            RenderEvent.reselectKey
          = if jsIncludes authMsg notFoundPhrase then 1 else 0) :=
  ⟨by decide, by decide,
   (generateImageForShot_authReselect cexSt2.shots 0 testShot.toGenerated authMsg
     (by decide) (by decide)).1⟩

end CinematicVision

namespace CinematicVision

/-- C1: for every non-empty script, when the Analyzer's call returns a
non-empty textual payload that parses as a JSON array, the shot list is
replaced wholesale with exactly the parsed array: same length, same array
order, all seven fields of each entry preserved, the previous list
discarded. -/
theorem analyzeScript_success_replaces (st : ToolState) (text : String)
    (parse : String → Except String (List Shot)) (parsedShots : List Shot)
    (hscript : strEmpty (jsTrim st.script) = false)
    (htext : strEmpty (jsTrim text) = false)
    (hparse : parse (jsTrim text) = .ok parsedShots) :
    (analyzeScript st (.returns (some text)) parse).shots
        = parsedShots.map Shot.toGenerated
      ∧ (analyzeScript st (.returns (some text)) parse).shots.length
        = parsedShots.length
      ∧ ∀ k : Nat,
          ((analyzeScript st (.returns (some text)) parse).shots[k]?).map
            GeneratedShot.toShot = parsedShots[k]? := by
  have hmain : (analyzeScript st (.returns (some text)) parse).shots
      = parsedShots.map Shot.toGenerated := by
    unfold analyzeScript
    rw [hscript]
    simp only [Bool.false_eq_true, if_false, Option.map_some']
    rw [htext]
    simp only [Bool.false_eq_true, if_false]
    rw [hparse]
  refine ⟨hmain, ?_, ?_⟩
  · rw [hmain, List.length_map]
  · intro k
    rw [hmain, List.getElem?_map, Option.map_map]
    have hcomp : GeneratedShot.toShot ∘ Shot.toGenerated = id := rfl
    rw [hcomp, Option.map_id]
    rfl

/-- Witness for C1 at the concrete analysis of `cexSt2`. -/
theorem analyzeScript_success_replaces_witness :
    strEmpty (jsTrim cexSt1.script) = false
      ∧ strEmpty (jsTrim "[shot]") = false
      ∧ parseOneShot (jsTrim "[shot]") = .ok [testShot]
      ∧ cexSt2.shots = [testShot].map Shot.toGenerated :=
  ⟨by decide, by decide, rfl,
   (analyzeScript_success_replaces cexSt1 "[shot]" parseOneShot [testShot]
     (by decide) (by decide) rfl).1⟩

/-- C4: for every non-empty script, if the Analyzer's response has no
textual payload (absent, empty or whitespace-only) or parsing the payload
fails, the operation fails with a top-level error message set, and the
shot list ends empty, never partially populated, the previous list
discarded. -/
theorem analyzeScript_failure_empty (st : ToolState) (outcome : AnalyzeOutcome)
    (parse : String → Except String (List Shot))
    (hscript : strEmpty (jsTrim st.script) = false)
    (hfail : outcome = .returns none
      ∨ (∃ t, outcome = .returns (some t) ∧ strEmpty (jsTrim t) = true)
      ∨ (∃ t msg, outcome = .returns (some t) ∧ parse (jsTrim t) = .error msg)) :
    (analyzeScript st outcome parse).error.isSome = true
      ∧ (analyzeScript st outcome parse).shots = [] := by
  rcases hfail with rfl | ⟨t, rfl, ht⟩ | ⟨t, msg, rfl, hp⟩
  · unfold analyzeScript
    rw [hscript]
    exact ⟨rfl, rfl⟩
  · unfold analyzeScript
    rw [hscript]
    simp only [Bool.false_eq_true, if_false, Option.map_some']
    rw [ht]
    exact ⟨rfl, rfl⟩
  · unfold analyzeScript
    rw [hscript]
    simp only [Bool.false_eq_true, if_false, Option.map_some']
    by_cases ht : strEmpty (jsTrim t) = true
    · rw [ht]
      exact ⟨rfl, rfl⟩
    · rw [Bool.not_eq_true] at ht
      rw [ht]
      simp only [Bool.false_eq_true, if_false]
      rw [hp]
      exact ⟨rfl, rfl⟩

/-- Witness for C4 at a concrete empty response body. -/
theorem analyzeScript_failure_empty_witness :
    strEmpty (jsTrim cexSt1.script) = false
      ∧ (analyzeScript cexSt1 (.returns (some "")) parseOneShot).error.isSome = true
      ∧ (analyzeScript cexSt1 (.returns (some "")) parseOneShot).shots = [] :=
  ⟨by decide,
   (analyzeScript_failure_empty cexSt1 (.returns (some "")) parseOneShot (by decide)
     (Or.inr (Or.inl ⟨"", rfl, by decide⟩))).1,
   (analyzeScript_failure_empty cexSt1 (.returns (some "")) parseOneShot (by decide)
     (Or.inr (Or.inl ⟨"", rfl, by decide⟩))).2⟩

end CinematicVision

namespace CinematicVision

/-- C5: the Batch Sweep renders exactly the indices of `0..n-1` that pass
the eligibility guard (no `imageUrl`, not generating), in strictly
ascending order, one call settling before the next starts (the embedding
is sequential, so the per-index traces are concatenated in visit order);
skipped indices receive no request and keep their state; and the sweep
equals the spec-side sweep whose guard reads the state at the moment each
index is reached, so the start-of-sweep snapshot guard of the source is
equivalent to the spec's wording. -/
theorem generateAllImages_sequential (shots : List GeneratedShot)
    (outcomes : Nat → RenderOutcome) :
    ((generateAllImages shots outcomes).2.map Prod.fst
        = (List.range shots.length).filter (sweepEligible shots))
      ∧ List.Pairwise (· < ·) ((generateAllImages shots outcomes).2.map Prod.fst)
      ∧ (∀ j : Nat, sweepEligible shots j = false →
          ((generateAllImages shots outcomes).1)[j]? = shots[j]?
            ∧ j ∉ (generateAllImages shots outcomes).2.map Prod.fst)
      ∧ generateAllImages shots outcomes = generateAllImagesSpec shots outcomes := by
  have h1 : (generateAllImages shots outcomes).2.map Prod.fst
      = (List.range shots.length).filter (sweepEligible shots) :=
    sweepAux_fst_map shots outcomes (List.range shots.length) shots
  refine ⟨h1, ?_, ?_, ?_⟩
  · rw [h1]
    exact List.Pairwise.filter _ (List.pairwise_lt_range shots.length)
  · intro j hj
    refine ⟨sweepAux_getElem?_skip shots outcomes (List.range shots.length) shots j hj, ?_⟩
    rw [h1]
    intro hmem
    rw [List.mem_filter, hj] at hmem
    exact Bool.noConfusion hmem.2
  · exact sweepAux_eq_spec shots outcomes (List.range shots.length) shots
      ((List.pairwise_lt_range shots.length).imp fun h => Nat.ne_of_lt h)
      (fun _ _ => rfl)

/-- C6 (amended): at every reachable instant, a shot that is mid-flight
(`isGenerating` true) carries no `error` (the error is cleared when an
attempt starts), so for shots without an image the statuses are mutually
exclusive; the original four-way exclusivity fails only for re-renders of
shots whose `imageUrl` is already set (see the counterexample). -/
theorem reachable_generating_no_error (st : ToolState) (h : Reachable st) :
    ∀ s ∈ st.shots, s.isGenerating = true → s.error = none := by
  induction h with
  | init =>
    intro s hs
    exact absurd hs (by simp [initialState])
  | editScript st sc h ih => exact ih
  | analyze st o parse h ih =>
    intro x hx hgen
    rcases analyzeScript_shots_cases st o parse with he | he | ⟨l, he⟩
    · rw [he] at hx
      exact ih x hx hgen
    · rw [he] at hx
      exact absurd hx (List.not_mem_nil x)
    · rw [he] at hx
      obtain ⟨sh, _, rfl⟩ := List.mem_map.mp hx
      exact Bool.noConfusion hgen
  | renderStart st i h ih =>
    intro x hx hgen
    rcases mem_renderStartState st.shots i x hx with hm | he
    · exact ih x hm hgen
    · exact he
  | render st i o h ih =>
    exact generateImageForShotWith_preserves st.shots st.shots i o ih
  | sweep st outcomes h ih =>
    exact sweepAux_preserves st.shots outcomes (List.range st.shots.length) st.shots ih

/-- Witness for the amended C6 at a concrete reachable in-flight state. -/
theorem reachable_generating_no_error_witness :
    genShot ∈ wStGen.shots ∧ genShot.isGenerating = true ∧ genShot.error = none := by
  have hre : Reachable wStGen :=
    Reachable.renderStart cexSt2 0
      (Reachable.analyze cexSt1 (.returns (some "[shot]")) parseOneShot
        (Reachable.editScript initialState "INT. ROOM - DAY" Reachable.init))
  exact ⟨by decide, by decide,
    reachable_generating_no_error wStGen hre genShot (by decide) (by decide)⟩

/-- C6 (counterexample): the state `cexSt4` is reachable — analyze, render
shot 0 successfully, then render shot 0 again with a failing request — and
its single shot then carries both `imageUrl` and `error` (two status
indicators at once), refuting the claimed four-way exclusivity. -/
theorem renderStatus_exclusivity_counterexample :
    Reachable cexSt4 ∧ cexSt4.shots.map statusFlags = [2] := by
  constructor
  · exact Reachable.render cexSt3 0 (.throws "boom")
      (Reachable.render cexSt2 0 (.returns [{ inlineData := some "QUJD" }])
        (Reachable.analyze cexSt1 (.returns (some "[shot]")) parseOneShot
          (Reachable.editScript initialState "INT. ROOM - DAY" Reachable.init)))
  · decide

end CinematicVision
